import Mathlib

/- Shallow embedding of climada/entity/entity.py: the Entity class that
   aggregates Exposures, ImpactFuncs, Measures and DiscRates, with its
   construction, read, check and attribute-assignment guard.  The four
   sub-collection classes live outside this file and are modelled as opaque
   records of operations. -/

set_option autoImplicit false

/-- A Python runtime value as seen by entity.py: the only thing the file ever
inspects is which of the four collection classes the value is an instance of
(subclassing included, mirroring isinstance); the payload is the otherwise
opaque content of the object. -/
structure PyVal where
  isExposures : Bool
  isImpactFuncs : Bool
  isMeasures : Bool
  isDiscRates : Bool
  payload : Nat
deriving DecidableEq

/-- The four collection classes named in entity.py. -/
inductive CollCls
  | exposures
  | impactFuncs
  | measures
  | discRates
deriving DecidableEq

/-- Python exceptions relevant to entity.py: the ValueError raised by the
attribute guard, AttributeError for a missing attribute, and otherwise opaque
errors raised by the sub-collection read and check operations (tagged with the
collection that raised them and an opaque code). -/
inductive PyErr
  | valueError
  | attributeError
  | collError (c : CollCls) (code : Nat)
deriving DecidableEq

/-- A file-name or description argument: a single string or a list of strings,
as the docstring of Entity allows; entity.py never inspects it, only forwards
it. -/
inductive StrOrList
  | one (s : String)
  | many (l : List String)
deriving DecidableEq

/-- The dynamic attribute state of an Entity instance: a partial map from
attribute names to values. -/
structure Entity where
  attrs : String → Option PyVal

/-- A fresh object with no instance attributes yet (the state of self at the
start of Entity.__init__). -/
def Entity.empty : Entity := ⟨fun _ => none⟩

/-- object.__setattr__: store the value under the name, unconditionally. -/
def Entity.rawSet (e : Entity) (n : String) (v : PyVal) : Entity :=
  ⟨fun m => if m = n then some v else e.attrs m⟩

/-- The attribute name strings used by Entity. -/
def nExposures : String := "exposures"

def nImpactFuncs : String := "impact_funcs"

def nMeasures : String := "measures"

def nDiscRates : String := "disc_rates"

/-- The type test of Entity.__setattr__: for each of the four guarded names
the value must be an instance of the corresponding class, otherwise a
ValueError is raised; any other name is not tested. -/
def setattrGuard (name : String) (value : PyVal) : Option PyErr :=
  if name = nExposures then
    if ¬ value.isExposures then some PyErr.valueError else none
  else if name = nImpactFuncs then
    if ¬ value.isImpactFuncs then some PyErr.valueError else none
  else if name = nMeasures then
    if ¬ value.isMeasures then some PyErr.valueError else none
  else if name = nDiscRates then
    if ¬ value.isDiscRates then some PyErr.valueError else none
  else none

/-- Entity.__setattr__: check the input type, then delegate to
object.__setattr__; when the guard raises, the state is unchanged. -/
def Entity.setattr (e : Entity) (name : String) (value : PyVal) :
    Entity × Option PyErr :=
  match setattrGuard name value with
  | some err => (e, some err)
  | none => (e.rawSet name value, none)

/-- Modelled from the spec: each sub-collection class (Exposures, ImpactFuncs,
Measures, DiscRates) is an opaque externally-defined type, not part of this
file, offering construction from a file name, default construction of a fresh
empty instance, a read operation (which in Python mutates the receiver in
place; here it returns the new contents or an error) and a check operation
(returning the first error, if any). -/
structure CollOps where
  fromFile : String → PyVal
  new : PyVal
  read : PyVal → StrOrList → Option StrOrList → Except PyErr PyVal
  check : PyVal → Option PyErr

/-- Modelled from the spec: the behaviours of the four external collaborator
classes used by Entity. -/
structure Env where
  exposures : CollOps
  impactFuncs : CollOps
  measures : CollOps
  discRates : CollOps

/-- Modelled from the spec: ENT_DEF_XLS from climada.util.config (a module not
under src), the fixed packaged default file name; its concrete value is
opaque, only its identity matters. -/
def ENT_DEF_XLS : String := "ENT_DEF_XLS"

/-- Entity.def_file, the class attribute naming the default source file. -/
def Entity.def_file : String := ENT_DEF_XLS

/-- Sequencing of statements that may raise: when the first raises, execution
aborts with the state the first produced; otherwise the continuation runs. -/
def seqE (r : Entity × Option PyErr) (k : Entity → Entity × Option PyErr) :
    Entity × Option PyErr :=
  match r with
  | (e, some err) => (e, some err)
  | (e, none) => k e

/-- One two-line step of Entity.read: assign a fresh default-constructed
instance to the named attribute (through the setattr guard), then invoke the
read operation of that fresh instance with the given file name and
description; the in-place mutation performed by read is reflected by storing
the new contents back under the name (plain mutation does not pass through
the setattr guard, and cannot change the class of the object). -/
def Entity.readOne (ops : CollOps) (name : String) (e : Entity)
    (file_name : StrOrList) (description : Option StrOrList) :
    Entity × Option PyErr :=
  match Entity.setattr e name ops.new with
  | (e1, some err) => (e1, some err)
  | (e1, none) =>
    match ops.read ops.new file_name description with
    | Except.error err => (e1, some err)
    | Except.ok v => (e1.rawSet name v, none)

/-- Entity.read: for each of the four collections, in source order exposures,
disc_rates, impact_funcs, measures, replace the attribute by a fresh instance
and invoke its read with the given file name and description; any raised error
aborts the remaining steps and leaves the state reached so far. -/
def Entity.read (env : Env) (e : Entity) (file_name : StrOrList)
    (description : Option StrOrList) : Entity × Option PyErr :=
  seqE (Entity.readOne env.exposures nExposures e file_name description) fun e1 =>
  seqE (Entity.readOne env.discRates nDiscRates e1 file_name description) fun e2 =>
  seqE (Entity.readOne env.impactFuncs nImpactFuncs e2 file_name description) fun e3 =>
  Entity.readOne env.measures nMeasures e3 file_name description

/-- Entity.__init__: with no file name, populate the four attributes from the
default file via each collection construction-from-file path, in source order
exposures, impact_funcs, measures, disc_rates (each assignment passing through
the setattr guard); with a file name, delegate to Entity.read. -/
def Entity.init (env : Env) (file_name : Option StrOrList)
    (description : Option StrOrList) : Entity × Option PyErr :=
  match file_name with
  | none =>
    seqE (Entity.setattr Entity.empty nExposures
            (env.exposures.fromFile Entity.def_file)) fun e1 =>
    seqE (Entity.setattr e1 nImpactFuncs
            (env.impactFuncs.fromFile Entity.def_file)) fun e2 =>
    seqE (Entity.setattr e2 nMeasures
            (env.measures.fromFile Entity.def_file)) fun e3 =>
    Entity.setattr e3 nDiscRates (env.discRates.fromFile Entity.def_file)
  | some f => Entity.read env Entity.empty f description

/-- Look up the named attribute and run the given check operation on it; a
missing attribute is a Python AttributeError. -/
def Entity.checkOne (ck : PyVal → Option PyErr) (e : Entity) (name : String) :
    Option PyErr :=
  match e.attrs name with
  | none => some PyErr.attributeError
  | some v => ck v

/-- Entity.check: invoke the check of each collection attribute in source
order disc_rates, exposures, impact_funcs, measures, stopping at the first
error; no attribute is assigned, so the state component is always the input
state. -/
def Entity.check (env : Env) (e : Entity) : Entity × Option PyErr :=
  match Entity.checkOne env.discRates.check e nDiscRates with
  | some err => (e, some err)
  | none =>
  match Entity.checkOne env.exposures.check e nExposures with
  | some err => (e, some err)
  | none =>
  match Entity.checkOne env.impactFuncs.check e nImpactFuncs with
  | some err => (e, some err)
  | none => (e, Entity.checkOne env.measures.check e nMeasures)

/-- The named attribute is present and its value satisfies the predicate. -/
def attrIs (e : Entity) (n : String) (p : PyVal → Bool) : Bool :=
  match e.attrs n with
  | some v => p v
  | none => false

/-- The type invariant of Entity: each of the four attributes is present and
holds an instance of its declared collection class. -/
def Entity.typeOk (e : Entity) : Bool :=
  attrIs e nExposures (fun v => v.isExposures)
    && attrIs e nImpactFuncs (fun v => v.isImpactFuncs)
    && attrIs e nMeasures (fun v => v.isMeasures)
    && attrIs e nDiscRates (fun v => v.isDiscRates)

/-- Well-formedness of one external collection class with respect to its
instance test: default construction, construction from a file and the
contents after a successful read are instances of the class (in Python an
object never changes its class, so an Exposures stays an Exposures). -/
structure CollOps.WF (ops : CollOps) (inst : PyVal → Bool) : Prop where
  new_inst : inst ops.new = true
  fromFile_inst : ∀ f, inst (ops.fromFile f) = true
  read_inst : ∀ v f d w, ops.read v f d = Except.ok w → inst w = true

/-- Well-formedness of the whole external environment: each of the four
collaborator classes produces instances of itself. -/
structure Env.WF (env : Env) : Prop where
  expo : CollOps.WF env.exposures (fun v => v.isExposures)
  impf : CollOps.WF env.impactFuncs (fun v => v.isImpactFuncs)
  meas : CollOps.WF env.measures (fun v => v.isMeasures)
  disc : CollOps.WF env.discRates (fun v => v.isDiscRates)

/-- Follows the spec words for the refinement claim: what a fresh instance of
a sub-collection holds after independently invoking its own read operation on
the given file name and description. -/
def specFreshRead (ops : CollOps) (f : StrOrList) (d : Option StrOrList) :
    Except PyErr PyVal :=
  ops.read ops.new f d

/-- A concrete value that is an instance of Exposures only. -/
def valX : PyVal := ⟨true, false, false, false, 0⟩

/-- A concrete value that is an instance of ImpactFuncs only. -/
def valI : PyVal := ⟨false, true, false, false, 0⟩

/-- A concrete value that is an instance of Measures only. -/
def valM : PyVal := ⟨false, false, true, false, 0⟩

/-- A concrete value that is an instance of DiscRates only. -/
def valD : PyVal := ⟨false, false, false, true, 0⟩

/-- A concrete value that is an instance of none of the four classes. -/
def valPlain : PyVal := ⟨false, false, false, false, 7⟩

/-- Replace the opaque payload, keeping the class tags: in Python an object
never changes its class. -/
def PyVal.withPayload (v : PyVal) (p : Nat) : PyVal :=
  ⟨v.isExposures, v.isImpactFuncs, v.isMeasures, v.isDiscRates, p⟩

/-- A well-behaved concrete collection class whose instances carry the class
tags of the given base value; reading always succeeds. -/
def mkOps (base : PyVal) : CollOps :=
  ⟨fun _ => base.withPayload 1, base,
    fun _ _ _ => Except.ok (base.withPayload 2), fun _ => none⟩

/-- Like mkOps, but with a different construction-from-file result and a
failing check: used to exercise independence from later collections. -/
def altOps (base : PyVal) (c : CollCls) : CollOps :=
  ⟨fun _ => base.withPayload 4, base,
    fun _ _ _ => Except.ok (base.withPayload 2),
    fun _ => some (PyErr.collError c 9)⟩

/-- A concrete collection class whose read always fails. -/
def failReadOps (base : PyVal) (c : CollCls) : CollOps :=
  ⟨fun _ => base.withPayload 1, base,
    fun _ _ _ => Except.error (PyErr.collError c 5), fun _ => none⟩

/-- A concrete collection class whose check always fails. -/
def failCheckOps (base : PyVal) (c : CollCls) : CollOps :=
  ⟨fun _ => base.withPayload 1, base,
    fun _ _ _ => Except.ok (base.withPayload 2),
    fun _ => some (PyErr.collError c 9)⟩

/-- A concrete environment in which every operation succeeds. -/
def envOK : Env := ⟨mkOps valX, mkOps valI, mkOps valM, mkOps valD⟩

/-- A concrete environment in which the read of DiscRates fails. -/
def envFailReadDisc : Env :=
  ⟨mkOps valX, mkOps valI, mkOps valM, failReadOps valD CollCls.discRates⟩

/-- A concrete environment in which the check of DiscRates fails. -/
def envFailCheckDisc : Env :=
  ⟨mkOps valX, mkOps valI, mkOps valM, failCheckOps valD CollCls.discRates⟩

/-- A concrete entity holding a distinguishable instance of each class. -/
def e0 : Entity :=
  (((Entity.empty.rawSet nExposures (valX.withPayload 9)).rawSet nImpactFuncs
      (valI.withPayload 9)).rawSet nMeasures (valM.withPayload 9)).rawSet
    nDiscRates (valD.withPayload 9)

/-- An unguarded attribute name. -/
def nDescription : String := "description"

/-- A concrete file-name argument. -/
def f0 : StrOrList := StrOrList.one "entity.xls"

/-- A concrete environment differing from envOK only in construction-from-file
and check behaviour (the read functions and fresh instances agree). -/
def envAlt : Env :=
  ⟨altOps valX CollCls.exposures, altOps valI CollCls.impactFuncs,
    altOps valM CollCls.measures, altOps valD CollCls.discRates⟩

/-- A concrete environment agreeing with envFailCheckDisc on DiscRates but
with different exposures, impact functions and measures classes. -/
def envAlt2 : Env :=
  ⟨altOps valX CollCls.exposures, altOps valI CollCls.impactFuncs,
    altOps valM CollCls.measures, failCheckOps valD CollCls.discRates⟩

/- Helper lemmas about the embedding. -/

theorem attrs_rawSet (e : Entity) (n m : String) (v : PyVal) :
    (e.rawSet n v).attrs m = if m = n then some v else e.attrs m := rfl

theorem setattr_of_guard_none {name : String} {value : PyVal}
    (h : setattrGuard name value = none) (e : Entity) :
    Entity.setattr e name value = (e.rawSet name value, none) := by
  simp [Entity.setattr, h]

theorem setattr_of_guard_some {name : String} {value : PyVal} {err : PyErr}
    (h : setattrGuard name value = some err) (e : Entity) :
    Entity.setattr e name value = (e, some err) := by
  simp [Entity.setattr, h]

theorem guard_exposures_ok {v : PyVal} (h : v.isExposures = true) :
    setattrGuard nExposures v = none := by
  simp [setattrGuard, h]

theorem guard_exposures_err {v : PyVal} (h : v.isExposures = false) :
    setattrGuard nExposures v = some PyErr.valueError := by
  simp [setattrGuard, h]

theorem guard_impact_funcs_ok {v : PyVal} (h : v.isImpactFuncs = true) :
    setattrGuard nImpactFuncs v = none := by
  simp [setattrGuard, nExposures, nImpactFuncs, h]

theorem guard_impact_funcs_err {v : PyVal} (h : v.isImpactFuncs = false) :
    setattrGuard nImpactFuncs v = some PyErr.valueError := by
  simp [setattrGuard, nExposures, nImpactFuncs, h]

theorem guard_measures_ok {v : PyVal} (h : v.isMeasures = true) :
    setattrGuard nMeasures v = none := by
  simp [setattrGuard, nExposures, nImpactFuncs, nMeasures, h]

theorem guard_measures_err {v : PyVal} (h : v.isMeasures = false) :
    setattrGuard nMeasures v = some PyErr.valueError := by
  simp [setattrGuard, nExposures, nImpactFuncs, nMeasures, h]

theorem guard_disc_rates_ok {v : PyVal} (h : v.isDiscRates = true) :
    setattrGuard nDiscRates v = none := by
  simp [setattrGuard, nExposures, nImpactFuncs, nMeasures, nDiscRates, h]

theorem guard_disc_rates_err {v : PyVal} (h : v.isDiscRates = false) :
    setattrGuard nDiscRates v = some PyErr.valueError := by
  simp [setattrGuard, nExposures, nImpactFuncs, nMeasures, nDiscRates, h]

theorem guard_other {name : String} (v : PyVal)
    (h1 : name ≠ nExposures) (h2 : name ≠ nImpactFuncs)
    (h3 : name ≠ nMeasures) (h4 : name ≠ nDiscRates) :
    setattrGuard name v = none := by
  simp [setattrGuard, h1, h2, h3, h4]

theorem attrIs_of_attrs {e : Entity} {n : String} {p : PyVal → Bool} {v : PyVal}
    (h : e.attrs n = some v) (hp : p v = true) : attrIs e n p = true := by
  simp [attrIs, h, hp]

theorem attrIs_true_elim {e : Entity} {n : String} {p : PyVal → Bool}
    (h : attrIs e n p = true) : ∃ v, e.attrs n = some v ∧ p v = true := by
  unfold attrIs at h
  cases hv : e.attrs n with
  | none => rw [hv] at h; cases h
  | some v => rw [hv] at h; exact ⟨v, rfl, h⟩

theorem attrIs_rawSet_same (e : Entity) (n : String) (v : PyVal)
    (p : PyVal → Bool) : attrIs (e.rawSet n v) n p = p v := by
  simp [attrIs, Entity.rawSet]

theorem attrIs_rawSet_other (e : Entity) {n m : String} (hnm : m ≠ n)
    (v : PyVal) (p : PyVal → Bool) : attrIs (e.rawSet n v) m p = attrIs e m p := by
  simp [attrIs, Entity.rawSet, hnm]

theorem guard_none_exposures {v : PyVal}
    (h : setattrGuard nExposures v = none) : v.isExposures = true := by
  cases hv : v.isExposures with
  | true => rfl
  | false => rw [guard_exposures_err hv] at h; cases h

theorem guard_none_impact_funcs {v : PyVal}
    (h : setattrGuard nImpactFuncs v = none) : v.isImpactFuncs = true := by
  cases hv : v.isImpactFuncs with
  | true => rfl
  | false => rw [guard_impact_funcs_err hv] at h; cases h

theorem guard_none_measures {v : PyVal}
    (h : setattrGuard nMeasures v = none) : v.isMeasures = true := by
  cases hv : v.isMeasures with
  | true => rfl
  | false => rw [guard_measures_err hv] at h; cases h

theorem guard_none_disc_rates {v : PyVal}
    (h : setattrGuard nDiscRates v = none) : v.isDiscRates = true := by
  cases hv : v.isDiscRates with
  | true => rfl
  | false => rw [guard_disc_rates_err hv] at h; cases h

theorem typeOk_eq (e : Entity) : e.typeOk = true ↔
    attrIs e nExposures (fun v => v.isExposures) = true ∧
    attrIs e nImpactFuncs (fun v => v.isImpactFuncs) = true ∧
    attrIs e nMeasures (fun v => v.isMeasures) = true ∧
    attrIs e nDiscRates (fun v => v.isDiscRates) = true := by
  simp [Entity.typeOk, Bool.and_eq_true, and_assoc]

theorem typeOk_rawSet_exposures {e : Entity} {v : PyVal}
    (he : e.typeOk = true) (hv : v.isExposures = true) :
    (e.rawSet nExposures v).typeOk = true := by
  rw [typeOk_eq] at he ⊢
  obtain ⟨h1, h2, h3, h4⟩ := he
  refine ⟨?_, ?_, ?_, ?_⟩
  · rw [attrIs_rawSet_same]; exact hv
  · rw [attrIs_rawSet_other e (by decide)]; exact h2
  · rw [attrIs_rawSet_other e (by decide)]; exact h3
  · rw [attrIs_rawSet_other e (by decide)]; exact h4

theorem typeOk_rawSet_impact_funcs {e : Entity} {v : PyVal}
    (he : e.typeOk = true) (hv : v.isImpactFuncs = true) :
    (e.rawSet nImpactFuncs v).typeOk = true := by
  rw [typeOk_eq] at he ⊢
  obtain ⟨h1, h2, h3, h4⟩ := he
  refine ⟨?_, ?_, ?_, ?_⟩
  · rw [attrIs_rawSet_other e (by decide)]; exact h1
  · rw [attrIs_rawSet_same]; exact hv
  · rw [attrIs_rawSet_other e (by decide)]; exact h3
  · rw [attrIs_rawSet_other e (by decide)]; exact h4

theorem typeOk_rawSet_measures {e : Entity} {v : PyVal}
    (he : e.typeOk = true) (hv : v.isMeasures = true) :
    (e.rawSet nMeasures v).typeOk = true := by
  rw [typeOk_eq] at he ⊢
  obtain ⟨h1, h2, h3, h4⟩ := he
  refine ⟨?_, ?_, ?_, ?_⟩
  · rw [attrIs_rawSet_other e (by decide)]; exact h1
  · rw [attrIs_rawSet_other e (by decide)]; exact h2
  · rw [attrIs_rawSet_same]; exact hv
  · rw [attrIs_rawSet_other e (by decide)]; exact h4

theorem typeOk_rawSet_disc_rates {e : Entity} {v : PyVal}
    (he : e.typeOk = true) (hv : v.isDiscRates = true) :
    (e.rawSet nDiscRates v).typeOk = true := by
  rw [typeOk_eq] at he ⊢
  obtain ⟨h1, h2, h3, h4⟩ := he
  refine ⟨?_, ?_, ?_, ?_⟩
  · rw [attrIs_rawSet_other e (by decide)]; exact h1
  · rw [attrIs_rawSet_other e (by decide)]; exact h2
  · rw [attrIs_rawSet_other e (by decide)]; exact h3
  · rw [attrIs_rawSet_same]; exact hv

theorem typeOk_rawSet_other {e : Entity} {n : String} {v : PyVal}
    (h1 : n ≠ nExposures) (h2 : n ≠ nImpactFuncs)
    (h3 : n ≠ nMeasures) (h4 : n ≠ nDiscRates)
    (he : e.typeOk = true) : (e.rawSet n v).typeOk = true := by
  rw [typeOk_eq] at he ⊢
  obtain ⟨g1, g2, g3, g4⟩ := he
  refine ⟨?_, ?_, ?_, ?_⟩
  · rw [attrIs_rawSet_other e (Ne.symm h1)]; exact g1
  · rw [attrIs_rawSet_other e (Ne.symm h2)]; exact g2
  · rw [attrIs_rawSet_other e (Ne.symm h3)]; exact g3
  · rw [attrIs_rawSet_other e (Ne.symm h4)]; exact g4

theorem setattr_typeOk (e : Entity) (n : String) (v : PyVal)
    (he : e.typeOk = true) : ((Entity.setattr e n v).1).typeOk = true := by
  cases hg : setattrGuard n v with
  | some err => rw [setattr_of_guard_some hg]; exact he
  | none =>
    rw [setattr_of_guard_none hg]
    by_cases h1 : n = nExposures
    · subst h1; exact typeOk_rawSet_exposures he (guard_none_exposures hg)
    by_cases h2 : n = nImpactFuncs
    · subst h2; exact typeOk_rawSet_impact_funcs he (guard_none_impact_funcs hg)
    by_cases h3 : n = nMeasures
    · subst h3; exact typeOk_rawSet_measures he (guard_none_measures hg)
    by_cases h4 : n = nDiscRates
    · subst h4; exact typeOk_rawSet_disc_rates he (guard_none_disc_rates hg)
    exact typeOk_rawSet_other h1 h2 h3 h4 he

theorem seqE_err (e : Entity) (err : PyErr) (k : Entity → Entity × Option PyErr) :
    seqE (e, some err) k = (e, some err) := rfl

theorem seqE_ok (e : Entity) (k : Entity → Entity × Option PyErr) :
    seqE (e, none) k = k e := rfl

theorem readOne_err {ops : CollOps} {name : String} {f : StrOrList}
    {d : Option StrOrList} {err : PyErr}
    (hg : setattrGuard name ops.new = none)
    (hr : ops.read ops.new f d = Except.error err) (e : Entity) :
    Entity.readOne ops name e f d = (e.rawSet name ops.new, some err) := by
  simp [Entity.readOne, setattr_of_guard_none hg, hr]

theorem readOne_ok {ops : CollOps} {name : String} {f : StrOrList}
    {d : Option StrOrList} {v : PyVal}
    (hg : setattrGuard name ops.new = none)
    (hr : ops.read ops.new f d = Except.ok v) (e : Entity) :
    Entity.readOne ops name e f d = ((e.rawSet name ops.new).rawSet name v, none) := by
  simp [Entity.readOne, setattr_of_guard_none hg, hr]

theorem read_fail_expo {env : Env} (hWF : Env.WF env) (e : Entity)
    {f : StrOrList} {d : Option StrOrList} {err : PyErr}
    (hx : env.exposures.read env.exposures.new f d = Except.error err) :
    Entity.read env e f d = (e.rawSet nExposures env.exposures.new, some err) := by
  unfold Entity.read
  rw [readOne_err (guard_exposures_ok hWF.expo.new_inst) hx, seqE_err]

theorem read_fail_disc {env : Env} (hWF : Env.WF env) (e : Entity)
    {f : StrOrList} {d : Option StrOrList} {vx : PyVal} {err : PyErr}
    (hx : env.exposures.read env.exposures.new f d = Except.ok vx)
    (hd : env.discRates.read env.discRates.new f d = Except.error err) :
    Entity.read env e f d =
      (((e.rawSet nExposures env.exposures.new).rawSet nExposures vx).rawSet
          nDiscRates env.discRates.new,
        some err) := by
  unfold Entity.read
  rw [readOne_ok (guard_exposures_ok hWF.expo.new_inst) hx, seqE_ok,
    readOne_err (guard_disc_rates_ok hWF.disc.new_inst) hd, seqE_err]

theorem read_fail_impf {env : Env} (hWF : Env.WF env) (e : Entity)
    {f : StrOrList} {d : Option StrOrList} {vx vd : PyVal} {err : PyErr}
    (hx : env.exposures.read env.exposures.new f d = Except.ok vx)
    (hd : env.discRates.read env.discRates.new f d = Except.ok vd)
    (hi : env.impactFuncs.read env.impactFuncs.new f d = Except.error err) :
    Entity.read env e f d =
      (((((e.rawSet nExposures env.exposures.new).rawSet nExposures vx).rawSet
              nDiscRates env.discRates.new).rawSet nDiscRates vd).rawSet
          nImpactFuncs env.impactFuncs.new,
        some err) := by
  unfold Entity.read
  rw [readOne_ok (guard_exposures_ok hWF.expo.new_inst) hx, seqE_ok,
    readOne_ok (guard_disc_rates_ok hWF.disc.new_inst) hd, seqE_ok,
    readOne_err (guard_impact_funcs_ok hWF.impf.new_inst) hi, seqE_err]

theorem read_fail_meas {env : Env} (hWF : Env.WF env) (e : Entity)
    {f : StrOrList} {d : Option StrOrList} {vx vd vi : PyVal} {err : PyErr}
    (hx : env.exposures.read env.exposures.new f d = Except.ok vx)
    (hd : env.discRates.read env.discRates.new f d = Except.ok vd)
    (hi : env.impactFuncs.read env.impactFuncs.new f d = Except.ok vi)
    (hm : env.measures.read env.measures.new f d = Except.error err) :
    Entity.read env e f d =
      (((((((e.rawSet nExposures env.exposures.new).rawSet nExposures vx).rawSet
                  nDiscRates env.discRates.new).rawSet nDiscRates vd).rawSet
              nImpactFuncs env.impactFuncs.new).rawSet nImpactFuncs vi).rawSet
          nMeasures env.measures.new,
        some err) := by
  unfold Entity.read
  rw [readOne_ok (guard_exposures_ok hWF.expo.new_inst) hx, seqE_ok,
    readOne_ok (guard_disc_rates_ok hWF.disc.new_inst) hd, seqE_ok,
    readOne_ok (guard_impact_funcs_ok hWF.impf.new_inst) hi, seqE_ok,
    readOne_err (guard_measures_ok hWF.meas.new_inst) hm]

theorem read_succ {env : Env} (hWF : Env.WF env) (e : Entity)
    {f : StrOrList} {d : Option StrOrList} {vx vd vi vm : PyVal}
    (hx : env.exposures.read env.exposures.new f d = Except.ok vx)
    (hd : env.discRates.read env.discRates.new f d = Except.ok vd)
    (hi : env.impactFuncs.read env.impactFuncs.new f d = Except.ok vi)
    (hm : env.measures.read env.measures.new f d = Except.ok vm) :
    Entity.read env e f d =
      ((((((((e.rawSet nExposures env.exposures.new).rawSet nExposures vx).rawSet
                    nDiscRates env.discRates.new).rawSet nDiscRates vd).rawSet
                nImpactFuncs env.impactFuncs.new).rawSet nImpactFuncs vi).rawSet
            nMeasures env.measures.new).rawSet nMeasures vm,
        none) := by
  unfold Entity.read
  rw [readOne_ok (guard_exposures_ok hWF.expo.new_inst) hx, seqE_ok,
    readOne_ok (guard_disc_rates_ok hWF.disc.new_inst) hd, seqE_ok,
    readOne_ok (guard_impact_funcs_ok hWF.impf.new_inst) hi, seqE_ok,
    readOne_ok (guard_measures_ok hWF.meas.new_inst) hm]

theorem init_none {env : Env} (hWF : Env.WF env) (d : Option StrOrList) :
    Entity.init env none d =
      ((((Entity.empty.rawSet nExposures
              (env.exposures.fromFile Entity.def_file)).rawSet nImpactFuncs
            (env.impactFuncs.fromFile Entity.def_file)).rawSet nMeasures
          (env.measures.fromFile Entity.def_file)).rawSet nDiscRates
        (env.discRates.fromFile Entity.def_file),
       none) := by
  unfold Entity.init
  rw [setattr_of_guard_none
      (guard_exposures_ok (hWF.expo.fromFile_inst Entity.def_file)), seqE_ok,
    setattr_of_guard_none
      (guard_impact_funcs_ok (hWF.impf.fromFile_inst Entity.def_file)), seqE_ok,
    setattr_of_guard_none
      (guard_measures_ok (hWF.meas.fromFile_inst Entity.def_file)), seqE_ok,
    setattr_of_guard_none
      (guard_disc_rates_ok (hWF.disc.fromFile_inst Entity.def_file))]

theorem init_some (env : Env) (f : StrOrList) (d : Option StrOrList) :
    Entity.init env (some f) d = Entity.read env Entity.empty f d := rfl

theorem check_fst (env : Env) (e : Entity) : (Entity.check env e).1 = e := by
  cases h1 : Entity.checkOne env.discRates.check e nDiscRates with
  | some err => simp [Entity.check, h1]
  | none =>
    cases h2 : Entity.checkOne env.exposures.check e nExposures with
    | some err => simp [Entity.check, h1, h2]
    | none =>
      cases h3 : Entity.checkOne env.impactFuncs.check e nImpactFuncs with
      | some err => simp [Entity.check, h1, h2, h3]
      | none => simp [Entity.check, h1, h2, h3]

theorem check_all_ok {env : Env} {e : Entity}
    (h1 : Entity.checkOne env.discRates.check e nDiscRates = none)
    (h2 : Entity.checkOne env.exposures.check e nExposures = none)
    (h3 : Entity.checkOne env.impactFuncs.check e nImpactFuncs = none)
    (h4 : Entity.checkOne env.measures.check e nMeasures = none) :
    Entity.check env e = (e, none) := by
  simp [Entity.check, h1, h2, h3, h4]

theorem check_fail_disc {env : Env} {e : Entity} {err : PyErr}
    (h1 : Entity.checkOne env.discRates.check e nDiscRates = some err) :
    Entity.check env e = (e, some err) := by
  simp [Entity.check, h1]

theorem check_fail_expo {env : Env} {e : Entity} {err : PyErr}
    (h1 : Entity.checkOne env.discRates.check e nDiscRates = none)
    (h2 : Entity.checkOne env.exposures.check e nExposures = some err) :
    Entity.check env e = (e, some err) := by
  simp [Entity.check, h1, h2]

theorem check_fail_impf {env : Env} {e : Entity} {err : PyErr}
    (h1 : Entity.checkOne env.discRates.check e nDiscRates = none)
    (h2 : Entity.checkOne env.exposures.check e nExposures = none)
    (h3 : Entity.checkOne env.impactFuncs.check e nImpactFuncs = some err) :
    Entity.check env e = (e, some err) := by
  simp [Entity.check, h1, h2, h3]

theorem check_fail_meas {env : Env} {e : Entity} {err : PyErr}
    (h1 : Entity.checkOne env.discRates.check e nDiscRates = none)
    (h2 : Entity.checkOne env.exposures.check e nExposures = none)
    (h3 : Entity.checkOne env.impactFuncs.check e nImpactFuncs = none)
    (h4 : Entity.checkOne env.measures.check e nMeasures = some err) :
    Entity.check env e = (e, some err) := by
  simp [Entity.check, h1, h2, h3, h4]

theorem typeOk_of_attrs {e : Entity} {a b c dv : PyVal}
    (hx : e.attrs nExposures = some a) (ha : a.isExposures = true)
    (hi : e.attrs nImpactFuncs = some b) (hb : b.isImpactFuncs = true)
    (hm : e.attrs nMeasures = some c) (hc : c.isMeasures = true)
    (hd : e.attrs nDiscRates = some dv) (hdv : dv.isDiscRates = true) :
    e.typeOk = true := by
  rw [typeOk_eq]
  exact ⟨attrIs_of_attrs hx ha, attrIs_of_attrs hi hb,
    attrIs_of_attrs hm hc, attrIs_of_attrs hd hdv⟩

theorem read_typeOk {env : Env} (hWF : Env.WF env) {e : Entity}
    (he : e.typeOk = true) (f : StrOrList) (d : Option StrOrList) :
    ((Entity.read env e f d).1).typeOk = true := by
  cases hx : env.exposures.read env.exposures.new f d with
  | error err =>
    rw [read_fail_expo hWF e hx]
    exact typeOk_rawSet_exposures he hWF.expo.new_inst
  | ok vx =>
    have hvx := hWF.expo.read_inst _ _ _ _ hx
    cases hd : env.discRates.read env.discRates.new f d with
    | error err =>
      rw [read_fail_disc hWF e hx hd]
      exact typeOk_rawSet_disc_rates
        (typeOk_rawSet_exposures
          (typeOk_rawSet_exposures he hWF.expo.new_inst) hvx)
        hWF.disc.new_inst
    | ok vd =>
      have hvd := hWF.disc.read_inst _ _ _ _ hd
      cases hi : env.impactFuncs.read env.impactFuncs.new f d with
      | error err =>
        rw [read_fail_impf hWF e hx hd hi]
        exact typeOk_rawSet_impact_funcs
          (typeOk_rawSet_disc_rates
            (typeOk_rawSet_disc_rates
              (typeOk_rawSet_exposures
                (typeOk_rawSet_exposures he hWF.expo.new_inst) hvx)
              hWF.disc.new_inst)
            hvd)
          hWF.impf.new_inst
      | ok vi =>
        have hvi := hWF.impf.read_inst _ _ _ _ hi
        cases hm : env.measures.read env.measures.new f d with
        | error err =>
          rw [read_fail_meas hWF e hx hd hi hm]
          exact typeOk_rawSet_measures
            (typeOk_rawSet_impact_funcs
              (typeOk_rawSet_impact_funcs
                (typeOk_rawSet_disc_rates
                  (typeOk_rawSet_disc_rates
                    (typeOk_rawSet_exposures
                      (typeOk_rawSet_exposures he hWF.expo.new_inst) hvx)
                    hWF.disc.new_inst)
                  hvd)
                hWF.impf.new_inst)
              hvi)
            hWF.meas.new_inst
        | ok vm =>
          have hvm := hWF.meas.read_inst _ _ _ _ hm
          rw [read_succ hWF e hx hd hi hm]
          exact typeOk_rawSet_measures
            (typeOk_rawSet_measures
              (typeOk_rawSet_impact_funcs
                (typeOk_rawSet_impact_funcs
                  (typeOk_rawSet_disc_rates
                    (typeOk_rawSet_disc_rates
                      (typeOk_rawSet_exposures
                        (typeOk_rawSet_exposures he hWF.expo.new_inst) hvx)
                      hWF.disc.new_inst)
                    hvd)
                  hWF.impf.new_inst)
                hvi)
              hWF.meas.new_inst)
            hvm

theorem read_none_typeOk {env : Env} (hWF : Env.WF env) (e : Entity)
    {f : StrOrList} {d : Option StrOrList}
    (h : (Entity.read env e f d).2 = none) :
    ((Entity.read env e f d).1).typeOk = true := by
  cases hx : env.exposures.read env.exposures.new f d with
  | error err => rw [read_fail_expo hWF e hx] at h; simp at h
  | ok vx =>
    have hvx := hWF.expo.read_inst _ _ _ _ hx
    cases hd : env.discRates.read env.discRates.new f d with
    | error err => rw [read_fail_disc hWF e hx hd] at h; simp at h
    | ok vd =>
      have hvd := hWF.disc.read_inst _ _ _ _ hd
      cases hi : env.impactFuncs.read env.impactFuncs.new f d with
      | error err => rw [read_fail_impf hWF e hx hd hi] at h; simp at h
      | ok vi =>
        have hvi := hWF.impf.read_inst _ _ _ _ hi
        cases hm : env.measures.read env.measures.new f d with
        | error err => rw [read_fail_meas hWF e hx hd hi hm] at h; simp at h
        | ok vm =>
          have hvm := hWF.meas.read_inst _ _ _ _ hm
          rw [read_succ hWF e hx hd hi hm]
          refine typeOk_of_attrs ?_ hvx ?_ hvi ?_ hvm ?_ hvd <;>
            simp [Entity.rawSet, nExposures, nImpactFuncs, nMeasures, nDiscRates]

theorem envOK_WF : Env.WF envOK := by
  refine ⟨⟨rfl, fun f => rfl, fun v f d w h => ?_⟩,
    ⟨rfl, fun f => rfl, fun v f d w h => ?_⟩,
    ⟨rfl, fun f => rfl, fun v f d w h => ?_⟩,
    ⟨rfl, fun f => rfl, fun v f d w h => ?_⟩⟩ <;>
  · simp only [envOK, mkOps, Except.ok.injEq] at h
    subst h
    rfl

theorem envFailReadDisc_WF : Env.WF envFailReadDisc := by
  refine ⟨⟨rfl, fun f => rfl, fun v f d w h => ?_⟩,
    ⟨rfl, fun f => rfl, fun v f d w h => ?_⟩,
    ⟨rfl, fun f => rfl, fun v f d w h => ?_⟩,
    ⟨rfl, fun f => rfl, fun v f d w h => ?_⟩⟩
  · simp only [envFailReadDisc, mkOps, Except.ok.injEq] at h
    subst h; rfl
  · simp only [envFailReadDisc, mkOps, Except.ok.injEq] at h
    subst h; rfl
  · simp only [envFailReadDisc, mkOps, Except.ok.injEq] at h
    subst h; rfl
  · simp [envFailReadDisc, failReadOps] at h

/-- C5: on an Entity whose four sub-collections are all valid, check succeeds
without error; when a sub-collection is the first invalid one in the fixed
order disc_rates, exposures, impact_funcs, measures, check fails with exactly
that collection own error, and the outcome does not depend on the check
behaviour of any collection ordered after the failing one (the conclusion
holds for every environment env2 that agrees with env up to the failing
collection). -/
theorem entity_check_first_error (env env2 : Env) (e : Entity) (err : PyErr) :
    (Entity.checkOne env.discRates.check e nDiscRates = none →
      Entity.checkOne env.exposures.check e nExposures = none →
      Entity.checkOne env.impactFuncs.check e nImpactFuncs = none →
      Entity.checkOne env.measures.check e nMeasures = none →
      Entity.check env e = (e, none)) ∧
    (Entity.checkOne env.discRates.check e nDiscRates = some err →
      env2.discRates = env.discRates →
      Entity.check env2 e = (e, some err)) ∧
    (Entity.checkOne env.discRates.check e nDiscRates = none →
      Entity.checkOne env.exposures.check e nExposures = some err →
      env2.discRates = env.discRates → env2.exposures = env.exposures →
      Entity.check env2 e = (e, some err)) ∧
    (Entity.checkOne env.discRates.check e nDiscRates = none →
      Entity.checkOne env.exposures.check e nExposures = none →
      Entity.checkOne env.impactFuncs.check e nImpactFuncs = some err →
      env2.discRates = env.discRates → env2.exposures = env.exposures →
      env2.impactFuncs = env.impactFuncs →
      Entity.check env2 e = (e, some err)) ∧
    (Entity.checkOne env.discRates.check e nDiscRates = none →
      Entity.checkOne env.exposures.check e nExposures = none →
      Entity.checkOne env.impactFuncs.check e nImpactFuncs = none →
      Entity.checkOne env.measures.check e nMeasures = some err →
      Entity.check env e = (e, some err)) := by
  refine ⟨fun h1 h2 h3 h4 => check_all_ok h1 h2 h3 h4, ?_, ?_, ?_, ?_⟩
  · intro h1 ha
    exact check_fail_disc (by rw [ha]; exact h1)
  · intro h1 h2 ha hb
    exact check_fail_expo (by rw [ha]; exact h1) (by rw [hb]; exact h2)
  · intro h1 h2 h3 ha hb hc
    exact check_fail_impf (by rw [ha]; exact h1) (by rw [hb]; exact h2)
      (by rw [hc]; exact h3)
  · intro h1 h2 h3 h4
    exact check_fail_meas h1 h2 h3 h4

theorem entity_check_first_error_witness :
    Entity.check envOK e0 = (e0, none) ∧
    Entity.check envAlt2 e0 = (e0, some (PyErr.collError CollCls.discRates 9)) :=
  ⟨(entity_check_first_error envOK envOK e0 PyErr.valueError).1 rfl rfl rfl rfl,
    (entity_check_first_error envFailCheckDisc envAlt2 e0
        (PyErr.collError CollCls.discRates 9)).2.1 rfl rfl⟩

/-- C6: assigning a value of the wrong type to any of the four guarded
attribute names raises ValueError before any other side effect: the result
state is exactly the previous state, so the attribute keeps its previous
value and no other attribute changes. -/
theorem entity_setattr_wrong_type (e : Entity) (v : PyVal) :
    (v.isExposures = false →
      Entity.setattr e nExposures v = (e, some PyErr.valueError) ∧
      ∀ n, ((Entity.setattr e nExposures v).1).attrs n = e.attrs n) ∧
    (v.isImpactFuncs = false →
      Entity.setattr e nImpactFuncs v = (e, some PyErr.valueError) ∧
      ∀ n, ((Entity.setattr e nImpactFuncs v).1).attrs n = e.attrs n) ∧
    (v.isMeasures = false →
      Entity.setattr e nMeasures v = (e, some PyErr.valueError) ∧
      ∀ n, ((Entity.setattr e nMeasures v).1).attrs n = e.attrs n) ∧
    (v.isDiscRates = false →
      Entity.setattr e nDiscRates v = (e, some PyErr.valueError) ∧
      ∀ n, ((Entity.setattr e nDiscRates v).1).attrs n = e.attrs n) := by
  refine ⟨fun h => ?_, fun h => ?_, fun h => ?_, fun h => ?_⟩
  · have hs := setattr_of_guard_some (guard_exposures_err h) e
    exact ⟨hs, fun n => by rw [hs]⟩
  · have hs := setattr_of_guard_some (guard_impact_funcs_err h) e
    exact ⟨hs, fun n => by rw [hs]⟩
  · have hs := setattr_of_guard_some (guard_measures_err h) e
    exact ⟨hs, fun n => by rw [hs]⟩
  · have hs := setattr_of_guard_some (guard_disc_rates_err h) e
    exact ⟨hs, fun n => by rw [hs]⟩

theorem entity_setattr_wrong_type_witness :
    Entity.setattr e0 nExposures valPlain = (e0, some PyErr.valueError) ∧
    Entity.setattr e0 nImpactFuncs valPlain = (e0, some PyErr.valueError) ∧
    Entity.setattr e0 nMeasures valPlain = (e0, some PyErr.valueError) ∧
    Entity.setattr e0 nDiscRates valPlain = (e0, some PyErr.valueError) :=
  ⟨((entity_setattr_wrong_type e0 valPlain).1 rfl).1,
    ((entity_setattr_wrong_type e0 valPlain).2.1 rfl).1,
    ((entity_setattr_wrong_type e0 valPlain).2.2.1 rfl).1,
    ((entity_setattr_wrong_type e0 valPlain).2.2.2 rfl).1⟩

/-- C7: an assignment to any attribute name other than the four guarded ones
passes through unchecked and succeeds for every value: the value is stored
under the name, no error is raised, and no other attribute changes. -/
theorem entity_setattr_passthrough (e : Entity) (n : String) (v : PyVal)
    (h1 : n ≠ nExposures) (h2 : n ≠ nImpactFuncs)
    (h3 : n ≠ nMeasures) (h4 : n ≠ nDiscRates) :
    Entity.setattr e n v = (e.rawSet n v, none) ∧
    ((Entity.setattr e n v).1).attrs n = some v ∧
    ∀ m, m ≠ n → ((Entity.setattr e n v).1).attrs m = e.attrs m := by
  have hs := setattr_of_guard_none (guard_other v h1 h2 h3 h4) e
  refine ⟨hs, ?_, fun m hm => ?_⟩
  · rw [hs]; simp [Entity.rawSet]
  · rw [hs]; simp [Entity.rawSet, hm]

theorem entity_setattr_passthrough_witness :
    Entity.setattr e0 nDescription valPlain =
      (e0.rawSet nDescription valPlain, none) :=
  (entity_setattr_passthrough e0 nDescription valPlain (by decide) (by decide)
      (by decide) (by decide)).1

/-- C10: Entity.check leaves every attribute unchanged whether it succeeds or
fails: it only invokes the sub-collection check operations and performs no
assignment. -/
theorem entity_check_frame (env : Env) (e : Entity) (n : String) :
    ((Entity.check env e).1).attrs n = e.attrs n := by
  rw [check_fst]

/-- C8: Entity.read forwards the very same file name and description,
unchanged, to each of the four sub-collection read operations, and performs no
transformation or interpretation of its own: its outcome depends on each
external read function only through its value at the fresh instance and the
given file name and description, so any environment whose reads agree there
yields the identical result. -/
theorem entity_read_forwards (env env2 : Env) (e : Entity) (f : StrOrList)
    (d : Option StrOrList)
    (hx1 : env2.exposures.new = env.exposures.new)
    (hd1 : env2.discRates.new = env.discRates.new)
    (hi1 : env2.impactFuncs.new = env.impactFuncs.new)
    (hm1 : env2.measures.new = env.measures.new)
    (hx2 : env2.exposures.read env.exposures.new f d
        = env.exposures.read env.exposures.new f d)
    (hd2 : env2.discRates.read env.discRates.new f d
        = env.discRates.read env.discRates.new f d)
    (hi2 : env2.impactFuncs.read env.impactFuncs.new f d
        = env.impactFuncs.read env.impactFuncs.new f d)
    (hm2 : env2.measures.read env.measures.new f d
        = env.measures.read env.measures.new f d) :
    Entity.read env2 e f d = Entity.read env e f d := by
  unfold Entity.read Entity.readOne
  simp only [hx1, hd1, hi1, hm1, hx2, hd2, hi2, hm2]

theorem entity_read_forwards_witness :
    Entity.read envAlt e0 f0 none = Entity.read envOK e0 f0 none :=
  entity_read_forwards envOK envAlt e0 f0 none rfl rfl rfl rfl rfl rfl rfl rfl

/-- C2: constructing an Entity with no file name succeeds and populates all
four attributes via each collection construction-from-file path applied to the
fixed packaged default file (def_file, which is ENT_DEF_XLS), and the result
satisfies the type invariant. -/
theorem entity_default_construction (env : Env) (hWF : Env.WF env) :
    Entity.def_file = ENT_DEF_XLS ∧
    (Entity.init env none none).2 = none ∧
    ((Entity.init env none none).1).attrs nExposures =
      some (env.exposures.fromFile ENT_DEF_XLS) ∧
    ((Entity.init env none none).1).attrs nImpactFuncs =
      some (env.impactFuncs.fromFile ENT_DEF_XLS) ∧
    ((Entity.init env none none).1).attrs nMeasures =
      some (env.measures.fromFile ENT_DEF_XLS) ∧
    ((Entity.init env none none).1).attrs nDiscRates =
      some (env.discRates.fromFile ENT_DEF_XLS) ∧
    ((Entity.init env none none).1).typeOk = true := by
  have hini := init_none hWF none
  refine ⟨rfl, ?_, ?_, ?_, ?_, ?_, ?_⟩
  · rw [hini]
  · rw [hini]
    simp [Entity.rawSet, Entity.def_file, nExposures, nImpactFuncs, nMeasures,
      nDiscRates]
  · rw [hini]
    simp [Entity.rawSet, Entity.def_file, nExposures, nImpactFuncs, nMeasures,
      nDiscRates]
  · rw [hini]
    simp [Entity.rawSet, Entity.def_file, nExposures, nImpactFuncs, nMeasures,
      nDiscRates]
  · rw [hini]
    simp [Entity.rawSet, Entity.def_file, nExposures, nImpactFuncs, nMeasures,
      nDiscRates]
  · rw [hini]
    refine typeOk_of_attrs ?_ (hWF.expo.fromFile_inst Entity.def_file) ?_
        (hWF.impf.fromFile_inst Entity.def_file) ?_
        (hWF.meas.fromFile_inst Entity.def_file) ?_
        (hWF.disc.fromFile_inst Entity.def_file) <;>
      simp [Entity.rawSet, nExposures, nImpactFuncs, nMeasures, nDiscRates]

theorem entity_default_construction_witness :
    (Entity.init envOK none none).2 = none ∧
    ((Entity.init envOK none none).1).attrs nExposures =
      some (valX.withPayload 1) ∧
    ((Entity.init envOK none none).1).typeOk = true := by
  have h := entity_default_construction envOK envOK_WF
  exact ⟨h.2.1, h.2.2.1, h.2.2.2.2.2.2⟩

/-- C3: constructing an Entity with a file name delegates to Entity.read, and
for a file name on which every sub-collection read succeeds, the four
attributes hold exactly what a fresh instance of each sub-collection would
hold after independently invoking its own read on that file name and
description. -/
theorem entity_file_construction_refines (env : Env) (hWF : Env.WF env)
    (f : StrOrList) (d : Option StrOrList) (vx vd vi vm : PyVal)
    (hx : specFreshRead env.exposures f d = Except.ok vx)
    (hd : specFreshRead env.discRates f d = Except.ok vd)
    (hi : specFreshRead env.impactFuncs f d = Except.ok vi)
    (hm : specFreshRead env.measures f d = Except.ok vm) :
    Entity.init env (some f) d = Entity.read env Entity.empty f d ∧
    (Entity.init env (some f) d).2 = none ∧
    ((Entity.init env (some f) d).1).attrs nExposures = some vx ∧
    ((Entity.init env (some f) d).1).attrs nDiscRates = some vd ∧
    ((Entity.init env (some f) d).1).attrs nImpactFuncs = some vi ∧
    ((Entity.init env (some f) d).1).attrs nMeasures = some vm := by
  have hr := read_succ hWF Entity.empty hx hd hi hm
  refine ⟨init_some env f d, ?_, ?_, ?_, ?_, ?_⟩
  · rw [init_some env f d, hr]
  · rw [init_some env f d, hr]
    simp [Entity.rawSet, nExposures, nImpactFuncs, nMeasures, nDiscRates]
  · rw [init_some env f d, hr]
    simp [Entity.rawSet, nExposures, nImpactFuncs, nMeasures, nDiscRates]
  · rw [init_some env f d, hr]
    simp [Entity.rawSet, nExposures, nImpactFuncs, nMeasures, nDiscRates]
  · rw [init_some env f d, hr]
    simp [Entity.rawSet, nExposures, nImpactFuncs, nMeasures, nDiscRates]

theorem entity_file_construction_refines_witness :
    (Entity.init envOK (some f0) none).2 = none ∧
    ((Entity.init envOK (some f0) none).1).attrs nExposures =
      some (valX.withPayload 2) ∧
    ((Entity.init envOK (some f0) none).1).attrs nDiscRates =
      some (valD.withPayload 2) ∧
    ((Entity.init envOK (some f0) none).1).attrs nImpactFuncs =
      some (valI.withPayload 2) ∧
    ((Entity.init envOK (some f0) none).1).attrs nMeasures =
      some (valM.withPayload 2) := by
  have h := entity_file_construction_refines envOK envOK_WF f0 none
    (valX.withPayload 2) (valD.withPayload 2) (valI.withPayload 2)
    (valM.withPayload 2) rfl rfl rfl rfl
  exact ⟨h.2.1, h.2.2.1, h.2.2.2.1, h.2.2.2.2.1, h.2.2.2.2.2⟩

/-- C4: when a sub-collection read fails during Entity.read, the error is
propagated and no rollback happens: collections read before the failure hold
the freshly-read contents, the failing collection holds its fresh default
instance, and every attribute at or after the failure point that was not yet
reached keeps its previous value (the read order being exposures, disc_rates,
impact_funcs, measures). -/
theorem entity_read_no_rollback (env : Env) (e : Entity) (f : StrOrList)
    (d : Option StrOrList) (err : PyErr) (hWF : Env.WF env) :
    (env.exposures.read env.exposures.new f d = Except.error err →
      (Entity.read env e f d).2 = some err ∧
      ((Entity.read env e f d).1).attrs nExposures = some env.exposures.new ∧
      (∀ n, n ≠ nExposures →
        ((Entity.read env e f d).1).attrs n = e.attrs n)) ∧
    (∀ vx, env.exposures.read env.exposures.new f d = Except.ok vx →
      env.discRates.read env.discRates.new f d = Except.error err →
      (Entity.read env e f d).2 = some err ∧
      ((Entity.read env e f d).1).attrs nExposures = some vx ∧
      ((Entity.read env e f d).1).attrs nDiscRates = some env.discRates.new ∧
      (∀ n, n ≠ nExposures → n ≠ nDiscRates →
        ((Entity.read env e f d).1).attrs n = e.attrs n)) ∧
    (∀ vx vd, env.exposures.read env.exposures.new f d = Except.ok vx →
      env.discRates.read env.discRates.new f d = Except.ok vd →
      env.impactFuncs.read env.impactFuncs.new f d = Except.error err →
      (Entity.read env e f d).2 = some err ∧
      ((Entity.read env e f d).1).attrs nExposures = some vx ∧
      ((Entity.read env e f d).1).attrs nDiscRates = some vd ∧
      ((Entity.read env e f d).1).attrs nImpactFuncs =
        some env.impactFuncs.new ∧
      (∀ n, n ≠ nExposures → n ≠ nDiscRates → n ≠ nImpactFuncs →
        ((Entity.read env e f d).1).attrs n = e.attrs n)) ∧
    (∀ vx vd vi, env.exposures.read env.exposures.new f d = Except.ok vx →
      env.discRates.read env.discRates.new f d = Except.ok vd →
      env.impactFuncs.read env.impactFuncs.new f d = Except.ok vi →
      env.measures.read env.measures.new f d = Except.error err →
      (Entity.read env e f d).2 = some err ∧
      ((Entity.read env e f d).1).attrs nExposures = some vx ∧
      ((Entity.read env e f d).1).attrs nDiscRates = some vd ∧
      ((Entity.read env e f d).1).attrs nImpactFuncs = some vi ∧
      ((Entity.read env e f d).1).attrs nMeasures = some env.measures.new ∧
      (∀ n, n ≠ nExposures → n ≠ nDiscRates → n ≠ nImpactFuncs →
        n ≠ nMeasures →
        ((Entity.read env e f d).1).attrs n = e.attrs n)) := by
  refine ⟨?_, ?_, ?_, ?_⟩
  · intro hx
    have hr := read_fail_expo hWF e hx
    refine ⟨by rw [hr], ?_, fun n hn => ?_⟩
    · rw [hr]; simp [Entity.rawSet]
    · rw [hr]; simp [Entity.rawSet, hn]
  · intro vx hx hd
    have hr := read_fail_disc hWF e hx hd
    refine ⟨by rw [hr], ?_, ?_, fun n hn1 hn2 => ?_⟩
    · rw [hr]
      simp [Entity.rawSet, nExposures, nImpactFuncs, nMeasures, nDiscRates]
    · rw [hr]; simp [Entity.rawSet]
    · rw [hr]; simp [Entity.rawSet, hn1, hn2]
  · intro vx vd hx hd hi
    have hr := read_fail_impf hWF e hx hd hi
    refine ⟨by rw [hr], ?_, ?_, ?_, fun n hn1 hn2 hn3 => ?_⟩
    · rw [hr]
      simp [Entity.rawSet, nExposures, nImpactFuncs, nMeasures, nDiscRates]
    · rw [hr]
      simp [Entity.rawSet, nExposures, nImpactFuncs, nMeasures, nDiscRates]
    · rw [hr]; simp [Entity.rawSet]
    · rw [hr]; simp [Entity.rawSet, hn1, hn2, hn3]
  · intro vx vd vi hx hd hi hm
    have hr := read_fail_meas hWF e hx hd hi hm
    refine ⟨by rw [hr], ?_, ?_, ?_, ?_, fun n hn1 hn2 hn3 hn4 => ?_⟩
    · rw [hr]
      simp [Entity.rawSet, nExposures, nImpactFuncs, nMeasures, nDiscRates]
    · rw [hr]
      simp [Entity.rawSet, nExposures, nImpactFuncs, nMeasures, nDiscRates]
    · rw [hr]
      simp [Entity.rawSet, nExposures, nImpactFuncs, nMeasures, nDiscRates]
    · rw [hr]; simp [Entity.rawSet]
    · rw [hr]; simp [Entity.rawSet, hn1, hn2, hn3, hn4]

theorem entity_read_no_rollback_witness :
    (Entity.read envFailReadDisc e0 f0 none).2 =
      some (PyErr.collError CollCls.discRates 5) ∧
    ((Entity.read envFailReadDisc e0 f0 none).1).attrs nExposures =
      some (valX.withPayload 2) ∧
    ((Entity.read envFailReadDisc e0 f0 none).1).attrs nDiscRates =
      some valD ∧
    ((Entity.read envFailReadDisc e0 f0 none).1).attrs nMeasures =
      some (valM.withPayload 9) := by
  have h := (entity_read_no_rollback envFailReadDisc e0 f0 none
      (PyErr.collError CollCls.discRates 5) envFailReadDisc_WF).2.1
    (valX.withPayload 2) rfl rfl
  exact ⟨h.1, h.2.1, h.2.2.1,
    (h.2.2.2 nMeasures (by decide) (by decide)).trans rfl⟩

/-- C9: when the read of the i-th collection fails during Entity.read, at the
moment Entity.read aborts that attribute holds the freshly default-constructed
empty instance of its class, which was assigned just before invoking the read,
and hence not its previous value whenever the previous value differed from the
fresh instance. -/
theorem entity_read_fresh_default_on_failure (env : Env) (e : Entity)
    (f : StrOrList) (d : Option StrOrList) (err : PyErr) (hWF : Env.WF env) :
    (env.exposures.read env.exposures.new f d = Except.error err →
      (Entity.read env e f d).2 = some err ∧
      ((Entity.read env e f d).1).attrs nExposures = some env.exposures.new ∧
      (e.attrs nExposures ≠ some env.exposures.new →
        ((Entity.read env e f d).1).attrs nExposures ≠ e.attrs nExposures)) ∧
    (∀ vx, env.exposures.read env.exposures.new f d = Except.ok vx →
      env.discRates.read env.discRates.new f d = Except.error err →
      (Entity.read env e f d).2 = some err ∧
      ((Entity.read env e f d).1).attrs nDiscRates = some env.discRates.new ∧
      (e.attrs nDiscRates ≠ some env.discRates.new →
        ((Entity.read env e f d).1).attrs nDiscRates ≠ e.attrs nDiscRates)) ∧
    (∀ vx vd, env.exposures.read env.exposures.new f d = Except.ok vx →
      env.discRates.read env.discRates.new f d = Except.ok vd →
      env.impactFuncs.read env.impactFuncs.new f d = Except.error err →
      (Entity.read env e f d).2 = some err ∧
      ((Entity.read env e f d).1).attrs nImpactFuncs =
        some env.impactFuncs.new ∧
      (e.attrs nImpactFuncs ≠ some env.impactFuncs.new →
        ((Entity.read env e f d).1).attrs nImpactFuncs ≠
          e.attrs nImpactFuncs)) ∧
    (∀ vx vd vi, env.exposures.read env.exposures.new f d = Except.ok vx →
      env.discRates.read env.discRates.new f d = Except.ok vd →
      env.impactFuncs.read env.impactFuncs.new f d = Except.ok vi →
      env.measures.read env.measures.new f d = Except.error err →
      (Entity.read env e f d).2 = some err ∧
      ((Entity.read env e f d).1).attrs nMeasures = some env.measures.new ∧
      (e.attrs nMeasures ≠ some env.measures.new →
        ((Entity.read env e f d).1).attrs nMeasures ≠ e.attrs nMeasures)) := by
  refine ⟨?_, ?_, ?_, ?_⟩
  · intro hx
    have hr := read_fail_expo hWF e hx
    have hl : ((Entity.read env e f d).1).attrs nExposures =
        some env.exposures.new := by
      rw [hr]; simp [Entity.rawSet]
    exact ⟨by rw [hr], hl, fun hprev hc => hprev (hc ▸ hl)⟩
  · intro vx hx hd
    have hr := read_fail_disc hWF e hx hd
    have hl : ((Entity.read env e f d).1).attrs nDiscRates =
        some env.discRates.new := by
      rw [hr]; simp [Entity.rawSet]
    exact ⟨by rw [hr], hl, fun hprev hc => hprev (hc ▸ hl)⟩
  · intro vx vd hx hd hi
    have hr := read_fail_impf hWF e hx hd hi
    have hl : ((Entity.read env e f d).1).attrs nImpactFuncs =
        some env.impactFuncs.new := by
      rw [hr]; simp [Entity.rawSet]
    exact ⟨by rw [hr], hl, fun hprev hc => hprev (hc ▸ hl)⟩
  · intro vx vd vi hx hd hi hm
    have hr := read_fail_meas hWF e hx hd hi hm
    have hl : ((Entity.read env e f d).1).attrs nMeasures =
        some env.measures.new := by
      rw [hr]; simp [Entity.rawSet]
    exact ⟨by rw [hr], hl, fun hprev hc => hprev (hc ▸ hl)⟩

theorem entity_read_fresh_default_on_failure_witness :
    ((Entity.read envFailReadDisc e0 f0 none).1).attrs nDiscRates =
      some valD ∧
    ((Entity.read envFailReadDisc e0 f0 none).1).attrs nDiscRates ≠
      e0.attrs nDiscRates := by
  have h := (entity_read_fresh_default_on_failure envFailReadDisc e0 f0 none
      (PyErr.collError CollCls.discRates 5) envFailReadDisc_WF).2.1
    (valX.withPayload 2) rfl rfl
  exact ⟨h.2.1, h.2.2 (by decide)⟩

/-- C1: after a successful construction each of the four attributes holds an
instance of its declared collection class, and this type invariant is
preserved by read (whatever its outcome), by check, and by every attribute
assignment; assigning a value that is not an instance of the required class
to one of the four guarded names fails immediately with ValueError and leaves
the state unchanged. -/
theorem entity_type_invariant (env : Env) (hWF : Env.WF env) :
    (∀ fn d e, Entity.init env fn d = (e, none) → e.typeOk = true) ∧
    (∀ (e : Entity) f d, e.typeOk = true →
      ((Entity.read env e f d).1).typeOk = true) ∧
    (∀ e : Entity, ((Entity.check env e).1).typeOk = e.typeOk) ∧
    (∀ (e : Entity) n v, e.typeOk = true →
      ((Entity.setattr e n v).1).typeOk = true) ∧
    (∀ (e : Entity) v, v.isExposures = false →
      Entity.setattr e nExposures v = (e, some PyErr.valueError)) ∧
    (∀ (e : Entity) v, v.isImpactFuncs = false →
      Entity.setattr e nImpactFuncs v = (e, some PyErr.valueError)) ∧
    (∀ (e : Entity) v, v.isMeasures = false →
      Entity.setattr e nMeasures v = (e, some PyErr.valueError)) ∧
    (∀ (e : Entity) v, v.isDiscRates = false →
      Entity.setattr e nDiscRates v = (e, some PyErr.valueError)) := by
  refine ⟨?_, ?_, ?_, ?_, ?_, ?_, ?_, ?_⟩
  · intro fn d e h
    cases fn with
    | none =>
      rw [init_none hWF d, Prod.mk.injEq] at h
      obtain ⟨h1, _⟩ := h
      rw [← h1]
      refine typeOk_of_attrs ?_ (hWF.expo.fromFile_inst Entity.def_file) ?_
          (hWF.impf.fromFile_inst Entity.def_file) ?_
          (hWF.meas.fromFile_inst Entity.def_file) ?_
          (hWF.disc.fromFile_inst Entity.def_file) <;>
        simp [Entity.rawSet, nExposures, nImpactFuncs, nMeasures, nDiscRates]
    | some f =>
      rw [init_some] at h
      have h2 : (Entity.read env Entity.empty f d).2 = none := by rw [h]
      have h3 := read_none_typeOk hWF Entity.empty h2
      rw [h] at h3
      exact h3
  · intro e f d he
    exact read_typeOk hWF he f d
  · intro e
    rw [check_fst]
  · intro e n v he
    exact setattr_typeOk e n v he
  · intro e v h
    exact setattr_of_guard_some (guard_exposures_err h) e
  · intro e v h
    exact setattr_of_guard_some (guard_impact_funcs_err h) e
  · intro e v h
    exact setattr_of_guard_some (guard_measures_err h) e
  · intro e v h
    exact setattr_of_guard_some (guard_disc_rates_err h) e

theorem entity_type_invariant_witness :
    ((Entity.init envOK none none).1).typeOk = true ∧
    ((Entity.read envFailReadDisc e0 f0 none).1).typeOk = true ∧
    Entity.setattr e0 nMeasures valPlain = (e0, some PyErr.valueError) :=
  ⟨(entity_type_invariant envOK envOK_WF).1 none none
      ((Entity.init envOK none none).1) rfl,
    (entity_type_invariant envFailReadDisc envFailReadDisc_WF).2.1 e0 f0 none
      rfl,
    (entity_type_invariant envOK envOK_WF).2.2.2.2.2.2.1 e0 valPlain rfl⟩
